import Mathlib

/-!
Shallow embedding of the LuxSim lighting engine (src/app.py).

Numbers are modelled exactly over the rationals.  The two transcendental
primitives used by the source, the composite tangent-of-degrees
function x ↦ np.tan(np.radians x) and the square root np.sqrt, are
abstracted as rational-valued oracle parameters tanDeg and sqrtQ: every
theorem is stated either for all oracles, or for all oracles satisfying a
property every faithful approximation has (for example positivity of the
square root of a positive number), or at an explicit concrete oracle.
The float64 value of np.pi is kept exactly as a rational constant.
-/

namespace LuxSim

/-- Indoor fixture record, one entry of INDOOR_LIGHTS in src/app.py. -/
structure IndoorLight where
  wattage : Int
  lumens : Int
  cri : Int
  color_temp : String
  typ : String
  ip_rating : String
  beam_angle : ℚ
deriving DecidableEq, Repr

/-- Outdoor fixture record, one entry of OUTDOOR_LIGHTS in src/app.py;
it additionally carries a mounting height. -/
structure OutdoorLight where
  wattage : Int
  lumens : Int
  cri : Int
  color_temp : String
  typ : String
  ip_rating : String
  beam_angle : ℚ
  mounting_height : ℚ
deriving DecidableEq, Repr

/-- The INDOOR_LIGHTS catalog of src/app.py (lines 185-220), in dict
insertion order: category name paired with its fixture list. -/
def INDOOR_LIGHTS : List (String × List IndoorLight) :=
  [("Residential",
    [⟨9, 800, 80, "3000K", "LED Bulb", "IP20", 120⟩,
     ⟨12, 1100, 80, "3000K", "LED Bulb", "IP20", 120⟩,
     ⟨15, 1400, 80, "4000K", "LED Downlight", "IP44", 90⟩,
     ⟨18, 1700, 85, "4000K", "LED Downlight", "IP44", 90⟩]),
   ("Office",
    [⟨18, 1800, 85, "4000K", "LED Panel", "IP20", 110⟩,
     ⟨24, 2400, 85, "4000K", "LED Panel", "IP20", 110⟩,
     ⟨36, 3600, 85, "4000K", "LED Panel", "IP20", 110⟩,
     ⟨48, 4800, 85, "5000K", "LED Panel", "IP20", 110⟩]),
   ("Commercial",
    [⟨20, 2000, 85, "4000K", "LED Track Light", "IP20", 60⟩,
     ⟨30, 3000, 85, "4000K", "LED Track Light", "IP20", 60⟩,
     ⟨40, 4000, 90, "5000K", "LED Downlight", "IP44", 90⟩,
     ⟨50, 5000, 90, "5000K", "LED Downlight", "IP44", 90⟩]),
   ("Industrial",
    [⟨50, 5000, 80, "5000K", "LED High Bay", "IP65", 90⟩,
     ⟨100, 10000, 80, "5000K", "LED High Bay", "IP65", 90⟩,
     ⟨150, 15000, 80, "5000K", "LED High Bay", "IP65", 90⟩,
     ⟨200, 20000, 80, "5000K", "LED High Bay", "IP65", 90⟩]),
   ("Educational",
    [⟨18, 1800, 85, "4000K", "LED Panel", "IP20", 110⟩,
     ⟨24, 2400, 85, "4000K", "LED Panel", "IP20", 110⟩,
     ⟨36, 3600, 85, "4000K", "LED Panel", "IP20", 110⟩]),
   ("Healthcare",
    [⟨18, 1800, 90, "4000K", "LED Panel", "IP44", 110⟩,
     ⟨24, 2400, 90, "4000K", "LED Panel", "IP44", 110⟩,
     ⟨36, 3600, 90, "5000K", "LED Panel", "IP44", 110⟩])]

/-- The OUTDOOR_LIGHTS catalog of src/app.py (lines 222-265), in dict
insertion order. -/
def OUTDOOR_LIGHTS : List (String × List OutdoorLight) :=
  [("Residential Estates",
    [⟨18, 1800, 80, "3000K", "LED Wall Light", "IP65", 120, 3⟩,
     ⟨24, 2400, 80, "3000K", "LED Bollard Light", "IP65", 360, 1⟩,
     ⟨30, 3000, 80, "4000K", "LED Flood Light", "IP65", 120, 4⟩,
     ⟨50, 5000, 80, "4000K", "LED Post Top", "IP65", 180, 5⟩]),
   ("Parks & Recreation",
    [⟨12, 1200, 80, "3000K", "LED Garden Light", "IP65", 360, 4/5⟩,
     ⟨20, 2000, 80, "3000K", "LED Path Light", "IP65", 120, 1⟩,
     ⟨30, 3000, 80, "4000K", "LED Flood Light", "IP65", 90, 4⟩,
     ⟨50, 5000, 80, "4000K", "LED Area Light", "IP65", 120, 6⟩]),
   ("Sports Facilities",
    [⟨100, 10000, 80, "5000K", "LED Sports Flood", "IP66", 60, 8⟩,
     ⟨150, 15000, 80, "5000K", "LED Sports Flood", "IP66", 60, 8⟩,
     ⟨200, 20000, 80, "5000K", "LED Sports Flood", "IP66", 45, 10⟩,
     ⟨300, 30000, 80, "5700K", "LED Sports Flood", "IP66", 45, 12⟩]),
   ("Pedestrian Infrastructure",
    [⟨18, 1800, 70, "4000K", "LED Street Light", "IP65", 120, 6⟩,
     ⟨24, 2400, 70, "4000K", "LED Street Light", "IP65", 120, 6⟩,
     ⟨36, 3600, 70, "4000K", "LED Street Light", "IP65", 120, 8⟩,
     ⟨24, 2400, 70, "4000K", "LED Underpass Light", "IP65", 90, 3⟩]),
   ("Roads & Car Parks",
    [⟨30, 3000, 70, "4000K", "LED Street Light", "IP65", 120, 8⟩,
     ⟨50, 5000, 70, "4000K", "LED Street Light", "IP65", 120, 9⟩,
     ⟨70, 7000, 70, "5000K", "LED Street Light", "IP65", 120, 10⟩,
     ⟨100, 10000, 70, "5000K", "LED Flood Light", "IP65", 90, 12⟩]),
   ("Security & Safety",
    [⟨20, 2000, 80, "5000K", "LED Security Light", "IP65", 110, 4⟩,
     ⟨30, 3000, 80, "5000K", "LED Security Light", "IP65", 110, 4⟩,
     ⟨50, 5000, 80, "5000K", "LED Flood Light", "IP66", 90, 5⟩,
     ⟨15, 1500, 80, "4000K", "LED Bulkhead", "IP65", 120, 3⟩]),
   ("Water Features",
    [⟨9, 800, 80, "3000K", "LED Landscape Light", "IP67", 60, 1/2⟩,
     ⟨12, 1100, 80, "3000K", "LED Landscape Light", "IP67", 60, 1/2⟩,
     ⟨18, 1700, 80, "4000K", "LED Pond Light", "IP68", 120, 1/5⟩,
     ⟨24, 2400, 80, "4000K", "LED Flood Light", "IP66", 90, 2⟩])]

/-- The exact rational value of the IEEE-754 double np.pi. -/
def np_pi : ℚ := 884279719003555 / 281474976710656

/-- Round-half-to-even on a rational, the idealisation of the Python
builtin round applied to an exactly represented value. -/
def roundHalfEven (q : ℚ) : Int :=
  if q - Int.floor q < 1/2 then Int.floor q
  else if 1/2 < q - Int.floor q then Int.floor q + 1
  else if Int.floor q % 2 = 0 then Int.floor q else Int.floor q + 1

/-- Python round(q, n) on an exactly represented rational. -/
def pyRound (q : ℚ) (n : Nat) : ℚ :=
  (roundHalfEven (q * 10 ^ n) : ℚ) / 10 ^ n

/-- The quantity total_lumens_required of src/app.py lines 273 and 318:
required_lux times area divided by the product of the factors. -/
def total_lumens_required (required_lux area maintenance_factor utilization_factor : ℚ) : ℚ :=
  (required_lux * area) / (maintenance_factor * utilization_factor)

/-- One candidate row appended by calculate_indoor_lights
(src/app.py lines 289-303). -/
structure IndoorCandidate where
  environment : String
  category : String
  light_type : String
  wattage : Int
  lumens : Int
  num_lights : Int
  total_wattage : Int
  actual_lux : ℚ
  spacing : ℚ
  cri : Int
  color_temp : String
  ip_rating : String
  beam_angle : ℚ
deriving DecidableEq, Repr

/-- The per-fixture fixture count of the indoor calculator
(src/app.py line 279): the ceiling of required lumens over the
fixture lumen output. -/
def indoor_num_lights (tlr : ℚ) (lumens_per_light : ℚ) : Int :=
  Int.ceil (tlr / lumens_per_light)

/-- The loop body of calculate_indoor_lights (src/app.py lines 277-303):
the candidate built for one fixture of one category. -/
def mkIndoorCandidate (tanDeg sqrtQ : ℚ → ℚ)
    (area room_height required_lux maintenance_factor utilization_factor : ℚ)
    (category : String) (light : IndoorLight) : IndoorCandidate :=
  let tlr := total_lumens_required required_lux area maintenance_factor utilization_factor
  let lumens_per_light : ℚ := light.lumens
  let num_lights : Int := indoor_num_lights tlr lumens_per_light
  let max_spacing := room_height * tanDeg (light.beam_angle / 2) * 2
  let area_per_light := area / (num_lights : ℚ)
  let spacing := min (sqrtQ area_per_light) max_spacing
  let actual_lux := ((num_lights : ℚ) * lumens_per_light * maintenance_factor * utilization_factor) / area
  { environment := "Indoor"
    category := category
    light_type := light.typ
    wattage := light.wattage
    lumens := light.lumens
    num_lights := num_lights
    total_wattage := num_lights * light.wattage
    actual_lux := pyRound actual_lux 1
    spacing := pyRound spacing 2
    cri := light.cri
    color_temp := light.color_temp
    ip_rating := light.ip_rating
    beam_angle := light.beam_angle }

/-- The list results of calculate_indoor_lights before the final sort:
one candidate per fixture, in catalog enumeration order. -/
def indoorResults (tanDeg sqrtQ : ℚ → ℚ)
    (area_length area_width room_height required_lux maintenance_factor utilization_factor : ℚ) :
    List IndoorCandidate :=
  let area := area_length * area_width
  INDOOR_LIGHTS.flatMap fun p =>
    p.2.map (mkIndoorCandidate tanDeg sqrtQ area room_height required_lux
      maintenance_factor utilization_factor p.1)

/-- The Python sort key comparison of src/app.py lines 305 and 366:
lexicographic on the pair of fixture count and total wattage. -/
def keyLE (a b : Int × Int) : Bool :=
  a.1 < b.1 || (a.1 == b.1 && a.2 ≤ b.2)

/-- Sort key of an indoor candidate. -/
def indoorKey (c : IndoorCandidate) : Int × Int := (c.num_lights, c.total_wattage)

/-- Comparison used by the indoor sort. -/
def indoorLE (a b : IndoorCandidate) : Bool := keyLE (indoorKey a) (indoorKey b)

/-- calculate_indoor_lights of src/app.py lines 267-306: the stably
sorted candidate list paired with the area. -/
def calculate_indoor_lights (tanDeg sqrtQ : ℚ → ℚ)
    (area_length area_width room_height required_lux : ℚ)
    (maintenance_factor utilization_factor : ℚ) :
    List IndoorCandidate × ℚ :=
  ((indoorResults tanDeg sqrtQ area_length area_width room_height required_lux
      maintenance_factor utilization_factor).mergeSort indoorLE,
   area_length * area_width)

/-- One candidate row appended by calculate_outdoor_lights
(src/app.py lines 346-363). -/
structure OutdoorCandidate where
  environment : String
  category : String
  light_type : String
  wattage : Int
  lumens : Int
  num_lights : Int
  total_wattage : Int
  actual_lux : ℚ
  spacing : ℚ
  mounting_height : ℚ
  cri : Int
  color_temp : String
  ip_rating : String
  beam_angle : ℚ
  coverage_area : ℚ
  uniformity : ℚ
deriving DecidableEq, Repr

/-- coverage_radius of src/app.py line 326: mounting height times the
tangent of half the beam angle (in radians), with no clamping of the
half angle. -/
def coverage_radius (tanDeg : ℚ → ℚ) (light : OutdoorLight) : ℚ :=
  light.mounting_height * tanDeg (light.beam_angle / 2)

/-- coverage_area of src/app.py line 327: the disc formula when the beam
angle strictly exceeds 180 degrees, else the directional strip. -/
def coverage_area_formula (beam_angle cov_radius mounting_height : ℚ) : ℚ :=
  if 180 < beam_angle then np_pi * cov_radius ^ 2 else 2 * cov_radius * mounting_height

/-- The per-fixture fixture count of the outdoor calculator
(src/app.py lines 330-332): the larger of the coverage-driven and the
lumen-driven ceilings. -/
def outdoor_num_lights (area tlr cov_area : ℚ) (lumens_per_light : ℚ) : Int :=
  max (Int.ceil (area / cov_area)) (Int.ceil (tlr / lumens_per_light))

/-- The uniformity proxy of src/app.py line 344. -/
def outdoor_uniformity (actual_lux : ℚ) (num_lights : Int) (lumens_per_light area : ℚ) : ℚ :=
  if 0 < num_lights then actual_lux / ((num_lights : ℚ) * lumens_per_light / area) else 0

/-- The loop body of calculate_outdoor_lights (src/app.py lines 322-363):
the candidate built for one fixture of one category. -/
def mkOutdoorCandidate (tanDeg : ℚ → ℚ)
    (area required_lux maintenance_factor utilization_factor : ℚ)
    (category : String) (light : OutdoorLight) : OutdoorCandidate :=
  let tlr := total_lumens_required required_lux area maintenance_factor utilization_factor
  let lumens_per_light : ℚ := light.lumens
  let cov_radius := coverage_radius tanDeg light
  let cov_area := coverage_area_formula light.beam_angle cov_radius light.mounting_height
  let num_lights : Int := outdoor_num_lights area tlr cov_area lumens_per_light
  let spacing :=
    if 180 ≤ light.beam_angle then min (2 * cov_radius) 10 else min (3/2 * cov_radius) 15
  let actual_lux := ((num_lights : ℚ) * lumens_per_light * maintenance_factor * utilization_factor) / area
  let uniformity := outdoor_uniformity actual_lux num_lights lumens_per_light area
  { environment := "Outdoor"
    category := category
    light_type := light.typ
    wattage := light.wattage
    lumens := light.lumens
    num_lights := num_lights
    total_wattage := num_lights * light.wattage
    actual_lux := pyRound actual_lux 1
    spacing := pyRound spacing 2
    mounting_height := light.mounting_height
    cri := light.cri
    color_temp := light.color_temp
    ip_rating := light.ip_rating
    beam_angle := light.beam_angle
    coverage_area := pyRound cov_area 1
    uniformity := pyRound uniformity 2 }

/-- The list results of calculate_outdoor_lights before the final sort. -/
def outdoorResults (tanDeg : ℚ → ℚ)
    (area_length area_width required_lux maintenance_factor : ℚ) :
    List OutdoorCandidate :=
  let area := area_length * area_width
  let utilization_factor : ℚ := 1/2
  OUTDOOR_LIGHTS.flatMap fun p =>
    p.2.map (mkOutdoorCandidate tanDeg area required_lux maintenance_factor
      utilization_factor p.1)

/-- Sort key of an outdoor candidate. -/
def outdoorKey (c : OutdoorCandidate) : Int × Int := (c.num_lights, c.total_wattage)

/-- Comparison used by the outdoor sort. -/
def outdoorLE (a b : OutdoorCandidate) : Bool := keyLE (outdoorKey a) (outdoorKey b)

/-- calculate_outdoor_lights of src/app.py lines 308-367.  The
parameters area_type and uniformity_requirement are accepted exactly as
in the source, which never reads them in the function body. -/
def calculate_outdoor_lights (tanDeg : ℚ → ℚ)
    (area_length area_width required_lux : ℚ) (area_type : String)
    (maintenance_factor uniformity_requirement : ℚ) :
    List OutdoorCandidate × ℚ :=
  ((outdoorResults tanDeg area_length area_width required_lux
      maintenance_factor).mergeSort outdoorLE,
   area_length * area_width)

/-- The record returned by calculate_energy_cost (src/app.py
lines 381-388), fields rounded to two decimal places. -/
structure EnergyCost where
  daily_consumption : ℚ
  monthly_consumption : ℚ
  yearly_consumption : ℚ
  daily_cost : ℚ
  monthly_cost : ℚ
  yearly_cost : ℚ
deriving DecidableEq, Repr

/-- The full-precision daily consumption of src/app.py line 373. -/
def daily_consumption_raw (total_wattage hours_per_day : ℚ) : ℚ :=
  (total_wattage / 1000) * hours_per_day

/-- calculate_energy_cost of src/app.py lines 369-388: full-precision
internal arithmetic, each returned field rounded to two decimals. -/
def calculate_energy_cost (total_wattage : ℚ) (hours_per_day days_per_year cost_per_kwh : ℚ) :
    EnergyCost :=
  let daily := daily_consumption_raw total_wattage hours_per_day
  let monthly := daily * 30
  let yearly := daily * days_per_year
  { daily_consumption := pyRound daily 2
    monthly_consumption := pyRound monthly 2
    yearly_consumption := pyRound yearly 2
    daily_cost := pyRound (daily * cost_per_kwh) 2
    monthly_cost := pyRound (monthly * cost_per_kwh) 2
    yearly_cost := pyRound (yearly * cost_per_kwh) 2 }

/-- lights_per_row of src/app.py line 395: the ceiling of the square
root of num_lights times length over width. -/
def lights_per_row (sqrtQ : ℚ → ℚ) (area_length area_width : ℚ) (num_lights : Int) : Int :=
  Int.ceil (sqrtQ ((num_lights : ℚ) * area_length / area_width))

/-- lights_per_col of src/app.py line 396. -/
def lights_per_col (sqrtQ : ℚ → ℚ) (area_length area_width : ℚ) (num_lights : Int) : Int :=
  Int.ceil ((num_lights : ℚ) / (lights_per_row sqrtQ area_length area_width num_lights : ℚ))

/-- The double loop of src/app.py lines 404-408: appends a grid position
while fewer than num_lights positions have been emitted. -/
def layoutFold (rows cols : Nat) (x_spacing y_spacing : ℚ) (num_lights : Int) :
    List (ℚ × ℚ) :=
  (List.range rows).foldl
    (fun acc (i : Nat) =>
      (List.range cols).foldl
        (fun acc2 (j : Nat) =>
          if (acc2.length : Int) < num_lights then
            acc2 ++ [(((i : ℚ) + 1) * x_spacing, ((j : ℚ) + 1) * y_spacing)]
          else acc2)
        acc)
    []

/-- The light positions of create_indoor_layout (src/app.py
lines 390-408).  The spacing argument is accepted as in the source,
which does not use it for the positions. -/
def create_indoor_layout (sqrtQ : ℚ → ℚ) (area_length area_width : ℚ)
    (num_lights : Int) (spacing : ℚ) : List (ℚ × ℚ) :=
  let rows := lights_per_row sqrtQ area_length area_width num_lights
  let cols := lights_per_col sqrtQ area_length area_width num_lights
  let x_spacing := area_length / ((rows : ℚ) + 1)
  let y_spacing := area_width / ((cols : ℚ) + 1)
  layoutFold rows.toNat cols.toNat x_spacing y_spacing num_lights

/-- The rounding of roundHalfEven moves a rational by at most one half. -/
theorem roundHalfEven_close (q : ℚ) : |(roundHalfEven q : ℚ) - q| ≤ 1/2 := by
  have h0 : (Int.floor q : ℚ) ≤ q := Int.floor_le q
  have h1 : q < (Int.floor q : ℚ) + 1 := Int.lt_floor_add_one q
  unfold roundHalfEven
  split_ifs with hlt hgt heven <;>
    (rw [abs_le]; constructor <;> push_cast <;> linarith)

/-- Python round(q, n) moves a rational by at most half a unit in the
last kept decimal place. -/
theorem pyRound_close (q : ℚ) (n : Nat) : |pyRound q n - q| ≤ 1 / (2 * 10 ^ n) := by
  have h10 : (0:ℚ) < 10 ^ n := by positivity
  have h := roundHalfEven_close (q * 10 ^ n)
  have key : pyRound q n - q = ((roundHalfEven (q * 10 ^ n) : ℚ) - q * 10 ^ n) / 10 ^ n := by
    field_simp [pyRound]
    ring
  rw [key, abs_div, abs_of_pos h10]
  calc |(roundHalfEven (q * 10 ^ n) : ℚ) - q * 10 ^ n| / 10 ^ n
      ≤ (1/2) / 10 ^ n := by gcongr
    _ = 1 / (2 * 10 ^ n) := by ring

/-- Lower bound form of the rounding estimate. -/
theorem pyRound_ge (q : ℚ) (n : Nat) : q - 1 / (2 * 10 ^ n) ≤ pyRound q n := by
  have h := pyRound_close q n
  rw [abs_le] at h
  linarith [h.1]

/-- Every fixture of the indoor catalog has positive lumens and wattage. -/
theorem indoor_catalog_pos : ∀ p ∈ INDOOR_LIGHTS, ∀ l ∈ p.2, 0 < l.lumens ∧ 0 < l.wattage := by
  decide

/-- Every fixture of the outdoor catalog has positive lumens, wattage
and mounting height. -/
theorem outdoor_catalog_pos :
    ∀ p ∈ OUTDOOR_LIGHTS, ∀ l ∈ p.2, 0 < l.lumens ∧ 0 < l.wattage ∧ 0 < l.mounting_height := by
  intro p hp l hl
  fin_cases hp <;> fin_cases hl <;> refine ⟨by norm_num, by norm_num, by norm_num⟩

/-- Positivity of the required lumens for a valid request. -/
theorem tlr_pos {lux area MF UF : ℚ} (hlux : 0 < lux) (hA : 0 < area)
    (hM : 0 < MF) (hU : 0 < UF) : 0 < total_lumens_required lux area MF UF := by
  unfold total_lumens_required
  positivity

/-- The ceiling of a positive rational is at least one. -/
theorem one_le_ceil_of_pos {q : ℚ} (h : 0 < q) : 1 ≤ Int.ceil q := Int.ceil_pos.mpr h

/-- Achieved illuminance bound of the lumen method: any fixture count at
least required lumens over fixture lumens yields at least the target. -/
theorem achieved_ge {area MF UF lux lam : ℚ} (hA : 0 < area) (hM : 0 < MF) (hU : 0 < UF)
    (hlam : 0 < lam) {n : Int}
    (hn : total_lumens_required lux area MF UF / lam ≤ (n : ℚ)) :
    lux ≤ ((n : ℚ) * lam * MF * UF) / area := by
  rw [total_lumens_required, div_le_iff hlam] at hn
  have h2 : lux * area ≤ (n : ℚ) * lam * (MF * UF) := by
    have hMU : (0:ℚ) < MF * UF := by positivity
    have := (div_le_iff hMU).mp hn
    linarith
  rw [le_div_iff hA]
  calc lux * area ≤ (n : ℚ) * lam * (MF * UF) := h2
    _ = (n : ℚ) * lam * MF * UF := by ring

/-- Transitivity of the Python sort key comparison. -/
theorem keyLE_trans : ∀ a b c : Int × Int,
    keyLE a b = true → keyLE b c = true → keyLE a c = true := by
  intro a b c hab hbc
  simp only [keyLE, Bool.or_eq_true, Bool.and_eq_true, decide_eq_true_eq, beq_iff_eq] at *
  omega

/-- Totality of the Python sort key comparison. -/
theorem keyLE_total : ∀ a b : Int × Int, keyLE a b || keyLE b a := by
  intro a b
  simp only [keyLE, Bool.or_eq_true, Bool.and_eq_true, decide_eq_true_eq, beq_iff_eq]
  omega

/-- Equal keys compare true. -/
theorem keyLE_of_eq {a b : Int × Int} (h : a = b) : keyLE a b = true := by
  subst h
  simp [keyLE]

/-- Any list whose elements are pairwise mutually below each other under
a comparison is Pairwise for it. -/
theorem pairwise_of_mutual {α : Type} {le : α → α → Bool} {P : α → Bool}
    (hP : ∀ a b, P a = true → P b = true → le a b = true) :
    ∀ m : List α, (∀ x ∈ m, P x = true) → m.Pairwise (fun a b => le a b = true) := by
  intro m
  induction m with
  | nil => intro _; exact List.Pairwise.nil
  | cons x xs ih =>
    intro hm
    constructor
    · intro y hy
      exact hP x y (hm x (List.mem_cons_self x xs)) (hm y (List.mem_cons_of_mem x hy))
    · exact ih fun z hz => hm z (List.mem_cons_of_mem x hz)

/-- Stability of mergeSort expressed through filtering: the sorted list
restricted to any class of mutually tied elements is the input list so
restricted, in the same order. -/
theorem mergeSort_filter_stable {α : Type} (le : α → α → Bool)
    (htrans : ∀ a b c, le a b = true → le b c = true → le a c = true)
    (htotal : ∀ a b, le a b || le b a)
    (P : α → Bool) (hP : ∀ a b, P a = true → P b = true → le a b = true)
    (l : List α) : (l.mergeSort le).filter P = l.filter P := by
  have hpair : (l.filter P).Pairwise (fun a b => le a b = true) :=
    pairwise_of_mutual hP _ fun x hx => (List.mem_filter.mp hx).2
  have hsub : List.Sublist (l.filter P) (l.mergeSort le) :=
    List.sublist_mergeSort htrans htotal hpair (List.filter_sublist l)
  have hsub2 : List.Sublist (l.filter P) ((l.mergeSort le).filter P) := by
    have h3 := hsub.filter P
    have h4 : (l.filter P).filter P = l.filter P := by
      rw [List.filter_filter]
      apply List.filter_congr
      intro x hx
      simp [Bool.and_self]
    rwa [h4] at h3
  have hlen : ((l.mergeSort le).filter P).length = (l.filter P).length :=
    ((List.mergeSort_perm l le).filter P).length_eq
  exact (hsub2.eq_of_length hlen.symm).symm

/-- Evaluation of roundHalfEven on an integer. -/
theorem roundHalfEven_intCast (m : Int) : roundHalfEven (m : ℚ) = m := by
  unfold roundHalfEven
  rw [Int.floor_intCast]
  simp

/-- Evaluation of roundHalfEven below the midpoint. -/
theorem roundHalfEven_eq_down {x : ℚ} {m : Int} (h1 : (m : ℚ) ≤ x) (h2 : x < (m : ℚ) + 1/2) :
    roundHalfEven x = m := by
  have hf : Int.floor x = m := Int.floor_eq_iff.mpr ⟨h1, by linarith⟩
  unfold roundHalfEven
  rw [hf, if_pos (by push_cast; linarith)]

/-- Evaluation of roundHalfEven above the midpoint. -/
theorem roundHalfEven_eq_up {x : ℚ} {m : Int} (h1 : (m : ℚ) + 1/2 < x) (h2 : x < (m : ℚ) + 1) :
    roundHalfEven x = m + 1 := by
  have hf : Int.floor x = m := Int.floor_eq_iff.mpr ⟨by linarith, by linarith⟩
  unfold roundHalfEven
  rw [hf, if_neg (by push_cast; linarith), if_pos (by push_cast; linarith)]

/-- Evaluation of pyRound when the scaled value is an integer. -/
theorem pyRound_eval_int {q r : ℚ} {n : Nat} {m : Int}
    (h : q * 10 ^ n = (m : ℚ)) (hr : (m : ℚ) / 10 ^ n = r) : pyRound q n = r := by
  rw [pyRound, h, roundHalfEven_intCast, hr]

/-- Evaluation of pyRound when the scaled value lies below a midpoint. -/
theorem pyRound_eval_down {q r : ℚ} {n : Nat} {m : Int}
    (h1 : (m : ℚ) ≤ q * 10 ^ n) (h2 : q * 10 ^ n < (m : ℚ) + 1/2)
    (hr : (m : ℚ) / 10 ^ n = r) : pyRound q n = r := by
  rw [pyRound, roundHalfEven_eq_down h1 h2, hr]

/-- Nested left folds over a family of lists fold over the flattened list. -/
theorem foldl_foldl_flatMap {α β γ : Type} (f : α → β → α) (g : γ → List β) :
    ∀ (l : List γ) (init : α),
      l.foldl (fun a c => (g c).foldl f a) init = (l.flatMap g).foldl f init := by
  intro l
  induction l with
  | nil => intro init; rfl
  | cons c cs ih =>
    intro init
    rw [List.foldl_cons, List.flatMap_cons, List.foldl_append, ih]

/-- A fold that appends while under a cap takes a prefix of its input. -/
theorem foldl_cap_eq_take (num : Int) :
    ∀ (xs acc : List (ℚ × ℚ)),
      xs.foldl (fun a p => if (a.length : Int) < num then a ++ [p] else a) acc
        = acc ++ xs.take (num - acc.length).toNat := by
  intro xs
  induction xs with
  | nil => intro acc; simp
  | cons p xs ih =>
    intro acc
    rw [List.foldl_cons]
    by_cases h : (acc.length : Int) < num
    · rw [if_pos h, ih]
      have h1 : (num - ((acc ++ [p]).length : Int)).toNat + 1 = (num - (acc.length : Int)).toNat := by
        simp only [List.length_append, List.length_cons, List.length_nil]
        push_cast
        omega
      conv_rhs => rw [← h1]
      rw [List.take_succ_cons]
      simp
    · rw [if_neg h, ih]
      have h0 : (num - (acc.length : Int)).toNat = 0 := by omega
      rw [h0]
      simp

/-- The layout loop emits the first num_lights entries of the row-major
grid of positions. -/
theorem layoutFold_eq (rows cols : Nat) (xsp ysp : ℚ) (num : Int) :
    layoutFold rows cols xsp ysp num
      = ((List.range rows).flatMap fun (i : Nat) =>
          (List.range cols).map fun (j : Nat) =>
            (((i : ℚ) + 1) * xsp, ((j : ℚ) + 1) * ysp)).take num.toNat := by
  unfold layoutFold
  have step1 : ∀ (i : Nat) (acc : List (ℚ × ℚ)),
      (List.range cols).foldl
          (fun acc2 (j : Nat) =>
            if (acc2.length : Int) < num then
              acc2 ++ [(((i : ℚ) + 1) * xsp, ((j : ℚ) + 1) * ysp)]
            else acc2)
          acc
        = ((List.range cols).map fun (j : Nat) => (((i : ℚ) + 1) * xsp, ((j : ℚ) + 1) * ysp)).foldl
            (fun a p => if (a.length : Int) < num then a ++ [p] else a) acc := by
    intro i acc
    rw [List.foldl_map]
  simp only [step1]
  rw [foldl_foldl_flatMap, foldl_cap_eq_take]
  norm_num

/-- Length of the row-major grid of positions. -/
theorem grid_length {β : Type} (f : Nat → Nat → β) (r c : Nat) :
    ((List.range r).flatMap fun i => (List.range c).map (f i)).length = r * c := by
  induction r with
  | zero => simp
  | succ r ih =>
    rw [List.range_succ, List.flatMap_append, List.length_append, ih]
    simp [Nat.succ_mul]

/-- C10: the outdoor calculator is completely independent of its
area_type and uniformity_requirement arguments: identical length, width,
target lux and maintenance factor give identical candidate list and
area. -/
theorem claim_C10 (tanDeg : ℚ → ℚ) (L W lux : ℚ) (a1 a2 : String) (MF u1 u2 : ℚ) :
    calculate_outdoor_lights tanDeg L W lux a1 MF u1
      = calculate_outdoor_lights tanDeg L W lux a2 MF u2 := rfl

/-- C3 counterexample: on the invalid dimension length = -1 the indoor
calculator does not fail fast with no candidates; it returns its full
22-candidate list. -/
theorem claim_C3_counterexample :
    ¬(0 < (-1 : ℚ)) ∧
      ((calculate_indoor_lights (fun _ => 0) (fun _ => 0) (-1) 4 3 150 1 1).1).length = 22 := by
  constructor
  · norm_num
  · simp only [calculate_indoor_lights]
    rw [List.length_mergeSort]
    rfl

/-- C3 amended: neither calculator validates its inputs; for every
input, valid or not, the indoor calculator returns one candidate per
catalog fixture (22 of them) and the outdoor calculator 28, with no
error path. -/
theorem claim_C3_amended (tanDeg sqrtQ : ℚ → ℚ) (L W hgt lux MF UF : ℚ)
    (atype : String) (ur : ℚ) :
    ((calculate_indoor_lights tanDeg sqrtQ L W hgt lux MF UF).1).length = 22 ∧
    ((calculate_outdoor_lights tanDeg L W lux atype MF ur).1).length = 28 := by
  constructor
  · simp only [calculate_indoor_lights]
    rw [List.length_mergeSort]
    rfl
  · simp only [calculate_outdoor_lights]
    rw [List.length_mergeSort]
    rfl

/-- C6 counterexample: the returned fields are rounded to two decimals,
so the returned monthly consumption is not the returned daily
consumption times 30 exactly: at total power 9 W, 9 hours per day, the
returned daily consumption is 0.08 while the returned monthly
consumption is 2.43, and 2.43 is not 0.08 times 30. -/
theorem claim_C6_counterexample :
    (calculate_energy_cost 9 9 365 (1/4)).monthly_consumption
      ≠ (calculate_energy_cost 9 9 365 (1/4)).daily_consumption * 30 := by
  have hm : (calculate_energy_cost 9 9 365 (1/4)).monthly_consumption = 243/100 := by
    show pyRound (daily_consumption_raw 9 9 * 30) 2 = 243/100
    apply pyRound_eval_int (m := 243)
    · rw [daily_consumption_raw]; norm_num
    · norm_num
  have hd : (calculate_energy_cost 9 9 365 (1/4)).daily_consumption = 2/25 := by
    show pyRound (daily_consumption_raw 9 9) 2 = 2/25
    apply pyRound_eval_down (m := 8)
    · rw [daily_consumption_raw]; norm_num
    · rw [daily_consumption_raw]; norm_num
    · norm_num
  rw [hm, hd]
  norm_num

/-- C6 amended: the full-precision internal quantities satisfy the exact
identities (monthly is daily times 30 independently of days_per_year,
yearly is daily times days_per_year, each cost is the matching
consumption times the tariff), every returned field is the internal
value rounded to two decimals, and identities between returned fields
hold within rounding tolerance only. -/
theorem claim_C6_amended (w hpd d p : ℚ) :
    (calculate_energy_cost w hpd d p).daily_consumption
        = pyRound (daily_consumption_raw w hpd) 2 ∧
    (calculate_energy_cost w hpd d p).monthly_consumption
        = pyRound (daily_consumption_raw w hpd * 30) 2 ∧
    (calculate_energy_cost w hpd d p).yearly_consumption
        = pyRound (daily_consumption_raw w hpd * d) 2 ∧
    (calculate_energy_cost w hpd d p).daily_cost
        = pyRound (daily_consumption_raw w hpd * p) 2 ∧
    (calculate_energy_cost w hpd d p).monthly_cost
        = pyRound (daily_consumption_raw w hpd * 30 * p) 2 ∧
    (calculate_energy_cost w hpd d p).yearly_cost
        = pyRound (daily_consumption_raw w hpd * d * p) 2 ∧
    (calculate_energy_cost w hpd d p).monthly_consumption
        = (calculate_energy_cost w hpd 1 p).monthly_consumption ∧
    |(calculate_energy_cost w hpd d p).yearly_consumption
        - daily_consumption_raw w hpd * d| ≤ 1/200 ∧
    |(calculate_energy_cost w hpd d p).monthly_consumption
        - (calculate_energy_cost w hpd d p).daily_consumption * 30| ≤ 31/200 := by
  refine ⟨rfl, rfl, rfl, rfl, rfl, rfl, rfl, ?_, ?_⟩
  · show |pyRound (daily_consumption_raw w hpd * d) 2 - daily_consumption_raw w hpd * d| ≤ 1/200
    have h := pyRound_close (daily_consumption_raw w hpd * d) 2
    norm_num at h
    exact h
  · show |pyRound (daily_consumption_raw w hpd * 30) 2
      - pyRound (daily_consumption_raw w hpd) 2 * 30| ≤ 31/200
    have h1 := pyRound_close (daily_consumption_raw w hpd * 30) 2
    have h2 := pyRound_close (daily_consumption_raw w hpd) 2
    norm_num at h1 h2
    rw [abs_le] at h1 h2 ⊢
    constructor <;> linarith

/-- C2 counterexample: the claim that beam angle exactly 180 degrees is
treated as omnidirectional is false: the coverage area branch of the
code tests beam_angle strictly greater than 180, so the LED Post Top
fixture (beam angle 180, mounting height 5) gets the directional strip
formula, whose value differs from the disc formula. -/
theorem claim_C2_counterexample :
    ¬ (∀ tanDeg : ℚ → ℚ, ∀ p ∈ OUTDOOR_LIGHTS, ∀ l ∈ p.2,
        (180 ≤ l.beam_angle →
          coverage_area_formula l.beam_angle (coverage_radius tanDeg l) l.mounting_height
            = np_pi * coverage_radius tanDeg l ^ 2) ∧
        (l.beam_angle < 180 →
          coverage_area_formula l.beam_angle (coverage_radius tanDeg l) l.mounting_height
            = 2 * coverage_radius tanDeg l * l.mounting_height)) := by
  intro hcl
  have hp : ("Residential Estates",
      [(⟨18, 1800, 80, "3000K", "LED Wall Light", "IP65", 120, 3⟩ : OutdoorLight),
       ⟨24, 2400, 80, "3000K", "LED Bollard Light", "IP65", 360, 1⟩,
       ⟨30, 3000, 80, "4000K", "LED Flood Light", "IP65", 120, 4⟩,
       ⟨50, 5000, 80, "4000K", "LED Post Top", "IP65", 180, 5⟩]) ∈ OUTDOOR_LIGHTS := by
    decide
  have hl : (⟨50, 5000, 80, "4000K", "LED Post Top", "IP65", 180, 5⟩ : OutdoorLight) ∈
      [(⟨18, 1800, 80, "3000K", "LED Wall Light", "IP65", 120, 3⟩ : OutdoorLight),
       ⟨24, 2400, 80, "3000K", "LED Bollard Light", "IP65", 360, 1⟩,
       ⟨30, 3000, 80, "4000K", "LED Flood Light", "IP65", 120, 4⟩,
       ⟨50, 5000, 80, "4000K", "LED Post Top", "IP65", 180, 5⟩] := by
    decide
  have h2 := (hcl (fun _ => 1) _ hp _ hl).1 (by norm_num)
  rw [coverage_radius, coverage_area_formula] at h2
  simp only at h2
  rw [if_neg (by norm_num)] at h2
  norm_num [np_pi] at h2

/-- C2 amended: the coverage area is the omnidirectional disc
pi times radius squared exactly when the beam angle strictly exceeds
180 degrees, and the directional strip two times radius times mounting
height whenever the beam angle is at most 180 degrees; in particular a
fixture with beam angle exactly 180 gets the strip formula. -/
theorem claim_C2_amended (tanDeg : ℚ → ℚ) :
    ∀ p ∈ OUTDOOR_LIGHTS, ∀ l ∈ p.2,
      (180 < l.beam_angle →
        coverage_area_formula l.beam_angle (coverage_radius tanDeg l) l.mounting_height
          = np_pi * coverage_radius tanDeg l ^ 2) ∧
      (l.beam_angle ≤ 180 →
        coverage_area_formula l.beam_angle (coverage_radius tanDeg l) l.mounting_height
          = 2 * coverage_radius tanDeg l * l.mounting_height) := by
  intro p hp l hl
  constructor
  · intro hb
    rw [coverage_area_formula, if_pos hb]
  · intro hb
    rw [coverage_area_formula, if_neg (not_lt.mpr hb)]

/-- Witness for the amended C2 at the LED Wall Light fixture. -/
theorem claim_C2_witness :
    (("Residential Estates",
      [(⟨18, 1800, 80, "3000K", "LED Wall Light", "IP65", 120, 3⟩ : OutdoorLight),
       ⟨24, 2400, 80, "3000K", "LED Bollard Light", "IP65", 360, 1⟩,
       ⟨30, 3000, 80, "4000K", "LED Flood Light", "IP65", 120, 4⟩,
       ⟨50, 5000, 80, "4000K", "LED Post Top", "IP65", 180, 5⟩]) ∈ OUTDOOR_LIGHTS) ∧
    ((⟨18, 1800, 80, "3000K", "LED Wall Light", "IP65", 120, 3⟩ : OutdoorLight) ∈
      [(⟨18, 1800, 80, "3000K", "LED Wall Light", "IP65", 120, 3⟩ : OutdoorLight),
       ⟨24, 2400, 80, "3000K", "LED Bollard Light", "IP65", 360, 1⟩,
       ⟨30, 3000, 80, "4000K", "LED Flood Light", "IP65", 120, 4⟩,
       ⟨50, 5000, 80, "4000K", "LED Post Top", "IP65", 180, 5⟩]) ∧
    ((120 : ℚ) ≤ 180) ∧
    coverage_area_formula 120
        (coverage_radius (fun _ => 1) ⟨18, 1800, 80, "3000K", "LED Wall Light", "IP65", 120, 3⟩) 3
      = 2 * coverage_radius (fun _ => 1) ⟨18, 1800, 80, "3000K", "LED Wall Light", "IP65", 120, 3⟩ * 3 :=
  ⟨by decide, by decide, by decide,
   (claim_C2_amended (fun _ => 1)
      ("Residential Estates",
      [(⟨18, 1800, 80, "3000K", "LED Wall Light", "IP65", 120, 3⟩ : OutdoorLight),
       ⟨24, 2400, 80, "3000K", "LED Bollard Light", "IP65", 360, 1⟩,
       ⟨30, 3000, 80, "4000K", "LED Flood Light", "IP65", 120, 4⟩,
       ⟨50, 5000, 80, "4000K", "LED Post Top", "IP65", 180, 5⟩]) (by decide)
      ⟨18, 1800, 80, "3000K", "LED Wall Light", "IP65", 120, 3⟩ (by decide)).2 (by decide)⟩

/-- C7: the code contains no clamp of the beam half angle: the tangent
oracle is applied to the raw half angle, and for the catalog fixtures
with beam angle 360 degrees the half angle is 180 degrees, where any
faithful tangent value is nonpositive (the exact tangent of 180 degrees
is 0 and the float64 value is about -1.22e-16), so coverage_radius is
nonpositive rather than finite and strictly positive. -/
theorem claim_C7_eval (tanDeg : ℚ → ℚ) (htan : tanDeg 180 ≤ 0) :
    ∀ p ∈ OUTDOOR_LIGHTS, ∀ l ∈ p.2, l.beam_angle = 360 →
      coverage_radius tanDeg l ≤ 0 := by
  intro p hp l hl hb
  have hh := (outdoor_catalog_pos p hp l hl).2.2
  rw [coverage_radius, hb]
  have h180 : (360 : ℚ) / 2 = 180 := by norm_num
  rw [h180]
  exact mul_nonpos_iff.mpr (Or.inl ⟨hh.le, htan⟩)

/-- Witness for C7 at the LED Bollard Light fixture with the exact
tangent value 0 of 180 degrees. -/
theorem claim_C7_witness :
    ((fun _ : ℚ => (0 : ℚ)) 180 ≤ 0) ∧
    (("Residential Estates",
      [(⟨18, 1800, 80, "3000K", "LED Wall Light", "IP65", 120, 3⟩ : OutdoorLight),
       ⟨24, 2400, 80, "3000K", "LED Bollard Light", "IP65", 360, 1⟩,
       ⟨30, 3000, 80, "4000K", "LED Flood Light", "IP65", 120, 4⟩,
       ⟨50, 5000, 80, "4000K", "LED Post Top", "IP65", 180, 5⟩]) ∈ OUTDOOR_LIGHTS) ∧
    ((⟨24, 2400, 80, "3000K", "LED Bollard Light", "IP65", 360, 1⟩ : OutdoorLight) ∈
      [(⟨18, 1800, 80, "3000K", "LED Wall Light", "IP65", 120, 3⟩ : OutdoorLight),
       ⟨24, 2400, 80, "3000K", "LED Bollard Light", "IP65", 360, 1⟩,
       ⟨30, 3000, 80, "4000K", "LED Flood Light", "IP65", 120, 4⟩,
       ⟨50, 5000, 80, "4000K", "LED Post Top", "IP65", 180, 5⟩]) ∧
    ((⟨24, 2400, 80, "3000K", "LED Bollard Light", "IP65", 360, 1⟩ : OutdoorLight).beam_angle = 360) ∧
    coverage_radius (fun _ => 0) ⟨24, 2400, 80, "3000K", "LED Bollard Light", "IP65", 360, 1⟩ ≤ 0 :=
  ⟨by decide, by decide, by decide, by decide,
   claim_C7_eval (fun _ => 0) (by decide)
      ("Residential Estates",
      [(⟨18, 1800, 80, "3000K", "LED Wall Light", "IP65", 120, 3⟩ : OutdoorLight),
       ⟨24, 2400, 80, "3000K", "LED Bollard Light", "IP65", 360, 1⟩,
       ⟨30, 3000, 80, "4000K", "LED Flood Light", "IP65", 120, 4⟩,
       ⟨50, 5000, 80, "4000K", "LED Post Top", "IP65", 180, 5⟩]) (by decide)
      ⟨24, 2400, 80, "3000K", "LED Bollard Light", "IP65", 360, 1⟩ (by decide) (by decide)⟩

/-- C8: for a fixed fixture and all other inputs held fixed, raising the
target illuminance never decreases the computed fixture count, in the
indoor calculator and in the outdoor one for any coverage area. -/
theorem claim_C8 (area MF UF lam cov lux lux2 : ℚ)
    (hA : 0 < area) (hM : 0 < MF) (hU : 0 < UF) (hlam : 0 < lam) (hle : lux ≤ lux2) :
    indoor_num_lights (total_lumens_required lux area MF UF) lam
        ≤ indoor_num_lights (total_lumens_required lux2 area MF UF) lam ∧
    outdoor_num_lights area (total_lumens_required lux area MF (1/2)) cov lam
        ≤ outdoor_num_lights area (total_lumens_required lux2 area MF (1/2)) cov lam := by
  have key : ∀ u : ℚ, 0 < u →
      total_lumens_required lux area MF u / lam ≤ total_lumens_required lux2 area MF u / lam := by
    intro u hu
    unfold total_lumens_required
    gcongr
  constructor
  · unfold indoor_num_lights
    exact Int.ceil_mono (key UF hU)
  · unfold outdoor_num_lights
    exact max_le_max (le_refl _) (Int.ceil_mono (key (1/2) (by norm_num)))

/-- Witness for C8 at concrete inputs. -/
theorem claim_C8_witness :
    (0 < (20 : ℚ)) ∧ (0 < (1 : ℚ)) ∧ (0 < (800 : ℚ)) ∧ ((100 : ℚ) ≤ 200) ∧
    (indoor_num_lights (total_lumens_required 100 20 1 1) 800
        ≤ indoor_num_lights (total_lumens_required 200 20 1 1) 800 ∧
      outdoor_num_lights 20 (total_lumens_required 100 20 1 (1/2)) 7 800
        ≤ outdoor_num_lights 20 (total_lumens_required 200 20 1 (1/2)) 7 800) :=
  ⟨by decide, by decide, by decide, by decide,
   claim_C8 20 1 1 800 7 100 200 (by decide) (by decide) (by decide) (by decide) (by decide)⟩

/-- C1: for every valid request and every catalog fixture, the indoor
candidate has fixture count equal to the ceiling of required lumens over
fixture lumens, the outdoor candidate has at least that lumen-driven
count, both counts are at least one, total power is exactly count times
wattage, and the stored achieved illuminance is at least the target
minus the rounding epsilon one twentieth. -/
theorem claim_C1 (tanDeg sqrtQ : ℚ → ℚ) (L W hgt lux MF UF : ℚ) (atype : String) (ur : ℚ)
    (hL : 0 < L) (hW : 0 < W) (hlux : 0 < lux)
    (hMF : 0 < MF) (hMF1 : MF ≤ 1) (hUF : 0 < UF) (hUF1 : UF ≤ 1) :
    (∀ c ∈ (calculate_indoor_lights tanDeg sqrtQ L W hgt lux MF UF).1,
      c.num_lights = Int.ceil (total_lumens_required lux (L * W) MF UF / (c.lumens : ℚ)) ∧
      1 ≤ c.num_lights ∧
      c.total_wattage = c.num_lights * c.wattage ∧
      lux - 1/20 ≤ c.actual_lux) ∧
    (∀ c ∈ (calculate_outdoor_lights tanDeg L W lux atype MF ur).1,
      Int.ceil (total_lumens_required lux (L * W) MF (1/2) / (c.lumens : ℚ)) ≤ c.num_lights ∧
      1 ≤ c.num_lights ∧
      c.total_wattage = c.num_lights * c.wattage ∧
      lux - 1/20 ≤ c.actual_lux) := by
  have harea : (0:ℚ) < L * W := mul_pos hL hW
  have heps : (1:ℚ) / (2 * 10 ^ 1) = 1/20 := by norm_num
  constructor
  · intro c hc
    simp only [calculate_indoor_lights, List.mem_mergeSort] at hc
    simp only [indoorResults, List.mem_flatMap, List.mem_map] at hc
    obtain ⟨p, hp, l, hl, rfl⟩ := hc
    have hlam : (0:ℚ) < (l.lumens : ℚ) := by
      exact_mod_cast (indoor_catalog_pos p hp l hl).1
    have htlr : 0 < total_lumens_required lux (L * W) MF UF := tlr_pos hlux harea hMF hUF
    refine ⟨rfl, one_le_ceil_of_pos (div_pos htlr hlam), rfl, ?_⟩
    have hn : total_lumens_required lux (L * W) MF UF / (l.lumens : ℚ)
        ≤ ((indoor_num_lights (total_lumens_required lux (L * W) MF UF) (l.lumens : ℚ) : ℚ)) := by
      rw [indoor_num_lights]
      exact Int.le_ceil _
    have hach := achieved_ge harea hMF hUF hlam hn
    have hpr := pyRound_ge
      (((indoor_num_lights (total_lumens_required lux (L * W) MF UF) (l.lumens : ℚ) : ℚ))
        * (l.lumens : ℚ) * MF * UF / (L * W)) 1
    simp only [mkIndoorCandidate]
    rw [heps] at hpr
    linarith
  · intro c hc
    simp only [calculate_outdoor_lights, List.mem_mergeSort] at hc
    simp only [outdoorResults, List.mem_flatMap, List.mem_map] at hc
    obtain ⟨p, hp, l, hl, rfl⟩ := hc
    have hlam : (0:ℚ) < (l.lumens : ℚ) := by
      exact_mod_cast (outdoor_catalog_pos p hp l hl).1
    have htlr : 0 < total_lumens_required lux (L * W) MF (1/2) :=
      tlr_pos hlux harea hMF (by norm_num)
    have hmax : Int.ceil (total_lumens_required lux (L * W) MF (1/2) / (l.lumens : ℚ))
        ≤ outdoor_num_lights (L * W) (total_lumens_required lux (L * W) MF (1/2))
            (coverage_area_formula l.beam_angle (coverage_radius tanDeg l) l.mounting_height)
            (l.lumens : ℚ) := by
      rw [outdoor_num_lights]
      exact le_max_right _ _
    refine ⟨hmax, le_trans (one_le_ceil_of_pos (div_pos htlr hlam)) hmax, rfl, ?_⟩
    have hn : total_lumens_required lux (L * W) MF (1/2) / (l.lumens : ℚ)
        ≤ ((outdoor_num_lights (L * W) (total_lumens_required lux (L * W) MF (1/2))
            (coverage_area_formula l.beam_angle (coverage_radius tanDeg l) l.mounting_height)
            (l.lumens : ℚ) : ℚ)) :=
      le_trans (Int.le_ceil _) (by exact_mod_cast hmax)
    have hach := achieved_ge harea hMF (by norm_num : (0:ℚ) < 1/2) hlam hn
    have hpr := pyRound_ge
      (((outdoor_num_lights (L * W) (total_lumens_required lux (L * W) MF (1/2))
          (coverage_area_formula l.beam_angle (coverage_radius tanDeg l) l.mounting_height)
          (l.lumens : ℚ) : ℚ)) * (l.lumens : ℚ) * MF * (1/2) / (L * W)) 1
    simp only [mkOutdoorCandidate]
    rw [heps] at hpr
    linarith

/-- Witness for C1 at the worked example of the spec: a 5 by 4 space at
150 lux with both factors 1. -/
theorem claim_C1_witness :
    (0 < (5:ℚ)) ∧ (0 < (4:ℚ)) ∧ (0 < (150:ℚ)) ∧ (0 < (1:ℚ)) ∧ ((1:ℚ) ≤ 1) ∧
    ((∀ c ∈ (calculate_indoor_lights (fun _ => 1) (fun _ => 2) 5 4 3 150 1 1).1,
        c.num_lights = Int.ceil (total_lumens_required 150 (5 * 4) 1 1 / (c.lumens : ℚ)) ∧
        1 ≤ c.num_lights ∧
        c.total_wattage = c.num_lights * c.wattage ∧
        (150:ℚ) - 1/20 ≤ c.actual_lux) ∧
      (∀ c ∈ (calculate_outdoor_lights (fun _ => 1) 5 4 150 "Park Path" 1 (2/5)).1,
        Int.ceil (total_lumens_required 150 (5 * 4) 1 (1/2) / (c.lumens : ℚ)) ≤ c.num_lights ∧
        1 ≤ c.num_lights ∧
        c.total_wattage = c.num_lights * c.wattage ∧
        (150:ℚ) - 1/20 ≤ c.actual_lux)) :=
  ⟨by decide, by decide, by decide, by decide, by decide,
   claim_C1 (fun _ => 1) (fun _ => 2) 5 4 3 150 1 1 "Park Path" (2/5)
     (by decide) (by decide) (by decide) (by decide) (by decide) (by decide) (by decide)⟩

/-- C9: the uniformity proxy of every outdoor candidate evaluates to
exactly MF times the fixed outdoor utilization factor one half,
regardless of geometry; the stored candidate field is that value rounded
to two decimals. -/
theorem claim_C9 (tanDeg : ℚ → ℚ) (L W lux MF ur : ℚ) (atype : String)
    (hL : 0 < L) (hW : 0 < W) (hlux : 0 < lux) (hMF : 0 < MF) :
    (∀ p ∈ OUTDOOR_LIGHTS, ∀ l ∈ p.2,
      outdoor_uniformity
          (((outdoor_num_lights (L * W) (total_lumens_required lux (L * W) MF (1/2))
              (coverage_area_formula l.beam_angle (coverage_radius tanDeg l) l.mounting_height)
              (l.lumens : ℚ) : ℚ)) * (l.lumens : ℚ) * MF * (1/2) / (L * W))
          (outdoor_num_lights (L * W) (total_lumens_required lux (L * W) MF (1/2))
              (coverage_area_formula l.beam_angle (coverage_radius tanDeg l) l.mounting_height)
              (l.lumens : ℚ))
          (l.lumens : ℚ) (L * W)
        = MF * (1/2)) ∧
    (∀ c ∈ (calculate_outdoor_lights tanDeg L W lux atype MF ur).1,
      c.uniformity = pyRound (MF * (1/2)) 2) := by
  have harea : (0:ℚ) < L * W := mul_pos hL hW
  have key : ∀ p ∈ OUTDOOR_LIGHTS, ∀ l ∈ p.2,
      outdoor_uniformity
          (((outdoor_num_lights (L * W) (total_lumens_required lux (L * W) MF (1/2))
              (coverage_area_formula l.beam_angle (coverage_radius tanDeg l) l.mounting_height)
              (l.lumens : ℚ) : ℚ)) * (l.lumens : ℚ) * MF * (1/2) / (L * W))
          (outdoor_num_lights (L * W) (total_lumens_required lux (L * W) MF (1/2))
              (coverage_area_formula l.beam_angle (coverage_radius tanDeg l) l.mounting_height)
              (l.lumens : ℚ))
          (l.lumens : ℚ) (L * W)
        = MF * (1/2) := by
    intro p hp l hl
    have hlam : (0:ℚ) < (l.lumens : ℚ) := by
      exact_mod_cast (outdoor_catalog_pos p hp l hl).1
    have htlr : 0 < total_lumens_required lux (L * W) MF (1/2) :=
      tlr_pos hlux harea hMF (by norm_num)
    have hnpos : 0 < outdoor_num_lights (L * W) (total_lumens_required lux (L * W) MF (1/2))
        (coverage_area_formula l.beam_angle (coverage_radius tanDeg l) l.mounting_height)
        (l.lumens : ℚ) := by
      rw [outdoor_num_lights]
      exact lt_of_lt_of_le (Int.ceil_pos.mpr (div_pos htlr hlam)) (le_max_right _ _)
    rw [outdoor_uniformity, if_pos hnpos]
    have hncast : (0:ℚ) < ((outdoor_num_lights (L * W) (total_lumens_required lux (L * W) MF (1/2))
        (coverage_area_formula l.beam_angle (coverage_radius tanDeg l) l.mounting_height)
        (l.lumens : ℚ) : ℚ)) := by exact_mod_cast hnpos
    field_simp
    ring
  refine ⟨key, ?_⟩
  intro c hc
  simp only [calculate_outdoor_lights, List.mem_mergeSort] at hc
  simp only [outdoorResults, List.mem_flatMap, List.mem_map] at hc
  obtain ⟨p, hp, l, hl, rfl⟩ := hc
  show pyRound (outdoor_uniformity
      (((outdoor_num_lights (L * W) (total_lumens_required lux (L * W) MF (1/2))
          (coverage_area_formula l.beam_angle (coverage_radius tanDeg l) l.mounting_height)
          (l.lumens : ℚ) : ℚ)) * (l.lumens : ℚ) * MF * (1/2) / (L * W))
      (outdoor_num_lights (L * W) (total_lumens_required lux (L * W) MF (1/2))
          (coverage_area_formula l.beam_angle (coverage_radius tanDeg l) l.mounting_height)
          (l.lumens : ℚ))
      (l.lumens : ℚ) (L * W)) 2 = pyRound (MF * (1/2)) 2
  rw [key p hp l hl]

/-- Witness for C9 at concrete inputs. -/
theorem claim_C9_witness :
    (0 < (2:ℚ)) ∧ (0 < (1:ℚ)) ∧ (0 < (10:ℚ)) ∧
    ((∀ p ∈ OUTDOOR_LIGHTS, ∀ l ∈ p.2,
      outdoor_uniformity
          (((outdoor_num_lights ((2:ℚ) * 1) (total_lumens_required 10 ((2:ℚ) * 1) 1 (1/2))
              (coverage_area_formula l.beam_angle (coverage_radius (fun _ => 0) l) l.mounting_height)
              (l.lumens : ℚ) : ℚ)) * (l.lumens : ℚ) * 1 * (1/2) / ((2:ℚ) * 1))
          (outdoor_num_lights ((2:ℚ) * 1) (total_lumens_required 10 ((2:ℚ) * 1) 1 (1/2))
              (coverage_area_formula l.beam_angle (coverage_radius (fun _ => 0) l) l.mounting_height)
              (l.lumens : ℚ))
          (l.lumens : ℚ) ((2:ℚ) * 1)
        = 1 * (1/2)) ∧
      (∀ c ∈ (calculate_outdoor_lights (fun _ => 0) 2 1 10 "Garden" 1 (2/5)).1,
        c.uniformity = pyRound ((1:ℚ) * (1/2)) 2)) :=
  ⟨by decide, by decide, by decide,
   claim_C9 (fun _ => 0) 2 1 10 1 (2/5) "Garden"
     (by decide) (by decide) (by decide) (by decide)⟩

/-- C5: the list returned by either calculator is sorted by fixture
count then total power ascending, is a permutation of the enumeration of
the catalog in insertion order, and within every tied key the
enumeration order is preserved (stability); the ranking is a pure
function of the inputs, hence deterministic, and the recommended
candidate read by the caller is the first element. -/
theorem claim_C5 (tanDeg sqrtQ : ℚ → ℚ) (L W hgt lux MF UF : ℚ) (atype : String) (ur : ℚ) :
    (((calculate_indoor_lights tanDeg sqrtQ L W hgt lux MF UF).1).Pairwise
        (fun a b => indoorLE a b = true) ∧
      ((calculate_indoor_lights tanDeg sqrtQ L W hgt lux MF UF).1).Perm
        (indoorResults tanDeg sqrtQ L W hgt lux MF UF) ∧
      ∀ k : Int × Int,
        ((calculate_indoor_lights tanDeg sqrtQ L W hgt lux MF UF).1).filter
            (fun c => indoorKey c == k)
          = (indoorResults tanDeg sqrtQ L W hgt lux MF UF).filter
              (fun c => indoorKey c == k)) ∧
    (((calculate_outdoor_lights tanDeg L W lux atype MF ur).1).Pairwise
        (fun a b => outdoorLE a b = true) ∧
      ((calculate_outdoor_lights tanDeg L W lux atype MF ur).1).Perm
        (outdoorResults tanDeg L W lux MF) ∧
      ∀ k : Int × Int,
        ((calculate_outdoor_lights tanDeg L W lux atype MF ur).1).filter
            (fun c => outdoorKey c == k)
          = (outdoorResults tanDeg L W lux MF).filter
              (fun c => outdoorKey c == k)) := by
  have itrans : ∀ a b c : IndoorCandidate,
      indoorLE a b = true → indoorLE b c = true → indoorLE a c = true :=
    fun a b c => keyLE_trans _ _ _
  have itotal : ∀ a b : IndoorCandidate, indoorLE a b || indoorLE b a :=
    fun a b => keyLE_total _ _
  have ihP : ∀ (k : Int × Int) (a b : IndoorCandidate),
      (indoorKey a == k) = true → (indoorKey b == k) = true → indoorLE a b = true := by
    intro k a b ha hb
    rw [beq_iff_eq] at ha hb
    unfold indoorLE
    rw [ha, hb]
    exact keyLE_of_eq rfl
  have otrans : ∀ a b c : OutdoorCandidate,
      outdoorLE a b = true → outdoorLE b c = true → outdoorLE a c = true :=
    fun a b c => keyLE_trans _ _ _
  have ototal : ∀ a b : OutdoorCandidate, outdoorLE a b || outdoorLE b a :=
    fun a b => keyLE_total _ _
  have ohP : ∀ (k : Int × Int) (a b : OutdoorCandidate),
      (outdoorKey a == k) = true → (outdoorKey b == k) = true → outdoorLE a b = true := by
    intro k a b ha hb
    rw [beq_iff_eq] at ha hb
    unfold outdoorLE
    rw [ha, hb]
    exact keyLE_of_eq rfl
  refine ⟨⟨?_, ?_, ?_⟩, ?_, ?_, ?_⟩
  · exact List.sorted_mergeSort itrans itotal _
  · exact List.mergeSort_perm _ _
  · intro k
    exact mergeSort_filter_stable indoorLE itrans itotal _ (ihP k) _
  · exact List.sorted_mergeSort otrans ototal _
  · exact List.mergeSort_perm _ _
  · intro k
    exact mergeSort_filter_stable outdoorLE otrans ototal _ (ohP k) _

/-- C4: for positive dimensions and at least one light, the layout
generator emits exactly num_lights coordinate pairs, each inside the
rectangle, namely the first num_lights entries of the row-major grid
with rows the ceiling of the square root of N L over W, cols the
ceiling of N over rows, and positions (i+1) L/(rows+1), (j+1) W/(cols+1). -/
theorem claim_C4 (sqrtQ : ℚ → ℚ) (L W : ℚ) (N : Int) (sp : ℚ)
    (hL : 0 < L) (hW : 0 < W) (hN : 1 ≤ N)
    (hsq : 0 < sqrtQ ((N : ℚ) * L / W)) :
    (create_indoor_layout sqrtQ L W N sp).length = N.toNat ∧
    (∀ pos ∈ create_indoor_layout sqrtQ L W N sp,
      0 ≤ pos.1 ∧ pos.1 ≤ L ∧ 0 ≤ pos.2 ∧ pos.2 ≤ W) ∧
    create_indoor_layout sqrtQ L W N sp
      = ((List.range (lights_per_row sqrtQ L W N).toNat).flatMap fun (i : Nat) =>
          (List.range (lights_per_col sqrtQ L W N).toNat).map fun (j : Nat) =>
            (((i : ℚ) + 1) * (L / ((lights_per_row sqrtQ L W N : ℚ) + 1)),
             ((j : ℚ) + 1) * (W / ((lights_per_col sqrtQ L W N : ℚ) + 1)))).take N.toNat := by
  have hR1 : 1 ≤ lights_per_row sqrtQ L W N := by
    rw [lights_per_row]
    exact one_le_ceil_of_pos hsq
  have hRq : (0:ℚ) < ((lights_per_row sqrtQ L W N : ℚ)) := by
    exact_mod_cast lt_of_lt_of_le zero_lt_one hR1
  have hNq : (0:ℚ) < (N : ℚ) := by
    exact_mod_cast lt_of_lt_of_le zero_lt_one hN
  have hC1 : 1 ≤ lights_per_col sqrtQ L W N := by
    rw [lights_per_col]
    exact one_le_ceil_of_pos (div_pos hNq hRq)
  have hCq : (0:ℚ) < ((lights_per_col sqrtQ L W N : ℚ)) := by
    exact_mod_cast lt_of_lt_of_le zero_lt_one hC1
  have heq : create_indoor_layout sqrtQ L W N sp
      = ((List.range (lights_per_row sqrtQ L W N).toNat).flatMap fun (i : Nat) =>
          (List.range (lights_per_col sqrtQ L W N).toNat).map fun (j : Nat) =>
            (((i : ℚ) + 1) * (L / ((lights_per_row sqrtQ L W N : ℚ) + 1)),
             ((j : ℚ) + 1) * (W / ((lights_per_col sqrtQ L W N : ℚ) + 1)))).take N.toNat := by
    simp only [create_indoor_layout]
    rw [layoutFold_eq]
  have hRtoNat : ((lights_per_row sqrtQ L W N).toNat : Int) = lights_per_row sqrtQ L W N :=
    Int.toNat_of_nonneg (by omega)
  have hCtoNat : ((lights_per_col sqrtQ L W N).toNat : Int) = lights_per_col sqrtQ L W N :=
    Int.toNat_of_nonneg (by omega)
  have hNRC : N.toNat ≤ (lights_per_row sqrtQ L W N).toNat * (lights_per_col sqrtQ L W N).toNat := by
    have h1 : (N : ℚ) / ((lights_per_row sqrtQ L W N : ℚ)) ≤ ((lights_per_col sqrtQ L W N : ℚ)) := by
      rw [lights_per_col]
      exact_mod_cast Int.le_ceil _
    have h2 : (N : ℚ) ≤ ((lights_per_row sqrtQ L W N : ℚ)) * ((lights_per_col sqrtQ L W N : ℚ)) := by
      rw [div_le_iff hRq] at h1
      linarith
    have h3 : N ≤ lights_per_row sqrtQ L W N * lights_per_col sqrtQ L W N := by
      exact_mod_cast h2
    have h4 : (((lights_per_row sqrtQ L W N).toNat * (lights_per_col sqrtQ L W N).toNat : Nat) : Int)
        = lights_per_row sqrtQ L W N * lights_per_col sqrtQ L W N := by
      push_cast [hRtoNat, hCtoNat]
      ring
    omega
  refine ⟨?_, ?_, heq⟩
  · rw [heq, List.length_take, grid_length]
    omega
  · intro pos hpos
    rw [heq] at hpos
    have hpos2 := List.mem_of_mem_take hpos
    rw [List.mem_flatMap] at hpos2
    obtain ⟨i, hi, hmap⟩ := hpos2
    rw [List.mem_map] at hmap
    obtain ⟨j, hj, rfl⟩ := hmap
    rw [List.mem_range] at hi hj
    have hxsp : (0:ℚ) ≤ L / ((lights_per_row sqrtQ L W N : ℚ) + 1) := by positivity
    have hysp : (0:ℚ) ≤ W / ((lights_per_col sqrtQ L W N : ℚ) + 1) := by positivity
    have hiq : ((i : ℚ) + 1) ≤ ((lights_per_row sqrtQ L W N : ℚ)) := by
      have : (i : Int) + 1 ≤ lights_per_row sqrtQ L W N := by omega
      exact_mod_cast this
    have hjq : ((j : ℚ) + 1) ≤ ((lights_per_col sqrtQ L W N : ℚ)) := by
      have : (j : Int) + 1 ≤ lights_per_col sqrtQ L W N := by omega
      exact_mod_cast this
    refine ⟨by positivity, ?_, by positivity, ?_⟩
    · calc ((i : ℚ) + 1) * (L / ((lights_per_row sqrtQ L W N : ℚ) + 1))
          ≤ (((lights_per_row sqrtQ L W N : ℚ)) + 1) * (L / ((lights_per_row sqrtQ L W N : ℚ) + 1)) := by
            apply mul_le_mul_of_nonneg_right _ hxsp
            linarith
        _ = L := by
            field_simp
    · calc ((j : ℚ) + 1) * (W / ((lights_per_col sqrtQ L W N : ℚ) + 1))
          ≤ (((lights_per_col sqrtQ L W N : ℚ)) + 1) * (W / ((lights_per_col sqrtQ L W N : ℚ) + 1)) := by
            apply mul_le_mul_of_nonneg_right _ hysp
            linarith
        _ = W := by
            field_simp

/-- Witness for C4 on a 4 by 4 space with 4 lights and the exact square
root 2 of 4. -/
theorem claim_C4_witness :
    (0 < (4:ℚ)) ∧ (1 ≤ (4:Int)) ∧ (0 < (fun _ : ℚ => (2:ℚ)) (((4:Int) : ℚ) * 4 / 4)) ∧
    ((create_indoor_layout (fun _ => 2) 4 4 4 1).length = (4:Int).toNat ∧
      (∀ pos ∈ create_indoor_layout (fun _ => 2) 4 4 4 1,
        0 ≤ pos.1 ∧ pos.1 ≤ 4 ∧ 0 ≤ pos.2 ∧ pos.2 ≤ 4) ∧
      create_indoor_layout (fun _ => 2) 4 4 4 1
        = ((List.range (lights_per_row (fun _ => 2) 4 4 4).toNat).flatMap fun (i : Nat) =>
            (List.range (lights_per_col (fun _ => 2) 4 4 4).toNat).map fun (j : Nat) =>
              (((i : ℚ) + 1) * ((4:ℚ) / ((lights_per_row (fun _ => 2) 4 4 4 : ℚ) + 1)),
               ((j : ℚ) + 1) * ((4:ℚ) / ((lights_per_col (fun _ => 2) 4 4 4 : ℚ) + 1)))).take
            (4:Int).toNat) :=
  ⟨by decide, by decide, by decide,
   claim_C4 (fun _ => 2) 4 4 4 1 (by decide) (by decide) (by decide) (by decide)⟩

end LuxSim
